import Mathlib

/-!
Verification of the `runtime` settings module of sampctl
(`src/runtime/settings.go`).

The module loads a server configuration from a directory (a `samp.json`
or `samp.yaml` file) and then overlays values from process environment
variables onto the loaded record.

Shallow embedding conventions:
* Go pointer-to-scalar fields (`*string`, `*int`, `*bool`, `*float32`)
  become `Option`-typed fields; `nil` is `none`.
* `int` is modelled as `Int` on a 64-bit platform, so `strconv.Atoi`
  fails exactly on syntax errors and on values outside the signed 64-bit
  range.
* `float32` / `float64` values are modelled as rationals.  Only the
  decimal subset of `strconv.ParseFloat` is modelled (optional sign,
  digits with optional fraction, optional decimal exponent); the special
  values inf/nan, hexadecimal floats, digit-group underscores, the
  out-of-range error, and the rounding of decimals to binary floats are
  outside the modelled subset — no claim under study depends on them.
* The process environment is an association list of name/value pairs;
  `os.LookupEnv` is lookup of the first matching entry.
* `fmt.Println` / `fmt.Printf` diagnostics are modelled as an emitted
  list of `LogMsg` values.
* A Go `panic` is modelled by returning `none` for the resulting record
  (the process aborts; the in-place mutations performed on the record
  before the panic are not observable afterwards and are not modelled).
-/

set_option autoImplicit false

namespace Sampctl

/-- Modelled from the spec: a structured plugin descriptor sub-record
(the `Plugin` type lives in another file of the `runtime` package that is
not part of the sources under study).  Its internal structure is
irrelevant here: the overlay dispatches on the *name* of the field's
type (`[]runtime.Plugin`), which matches none of the handled cases. -/
structure Plugin where
  name : String
deriving DecidableEq, Repr

/-- The `Config` struct of `settings.go`, field for field and in
declaration order.  The unexported `dir` field carries the source
directory; every exported field carries the json tag recorded in
`configFieldMeta` below. -/
structure Config where
  dir : Option String
  Version : Option String
  Endpoint : Option String
  Echo : Option String
  Gamemodes : List String
  Filterscripts : List String
  Plugins : List Plugin
  RCONPassword : Option String
  Port : Option Int
  Hostname : Option String
  MaxPlayers : Option Int
  Language : Option String
  Mapname : Option String
  Weburl : Option String
  GamemodeText : Option String
  Bind : Option String
  Password : Option String
  Announce : Option Bool
  LANMode : Option Bool
  Query : Option Bool
  RCON : Option Bool
  LogQueries : Option Bool
  Sleep : Option Int
  MaxNPC : Option Int
  StreamRate : Option Int
  StreamDistance : Option ℚ
  OnFootRate : Option Int
  InCarRate : Option Int
  WeaponRate : Option Int
  ChatLogging : Option Bool
  Timestamp : Option Bool
  NoSign : Option String
  LogTimeFormat : Option String
  MessageHoleLimit : Option Int
  MessagesLimit : Option Int
  AcksLimit : Option Int
  PlayerTimeout : Option Int
  MinConnectionTime : Option Int
  LagCompmode : Option Int
  ConnseedTime : Option Int
  DBLogging : Option Bool
  DBLogQueries : Option Bool
  ConnectCookies : Option Bool
  CookieLogging : Option Bool
  Output : Option Bool
deriving DecidableEq, Repr

/-- The Go zero value of `Config`: every pointer nil, every slice empty. -/
def Config.empty : Config where
  dir := none
  Version := none
  Endpoint := none
  Echo := none
  Gamemodes := []
  Filterscripts := []
  Plugins := []
  RCONPassword := none
  Port := none
  Hostname := none
  MaxPlayers := none
  Language := none
  Mapname := none
  Weburl := none
  GamemodeText := none
  Bind := none
  Password := none
  Announce := none
  LANMode := none
  Query := none
  RCON := none
  LogQueries := none
  Sleep := none
  MaxNPC := none
  StreamRate := none
  StreamDistance := none
  OnFootRate := none
  InCarRate := none
  WeaponRate := none
  ChatLogging := none
  Timestamp := none
  NoSign := none
  LogTimeFormat := none
  MessageHoleLimit := none
  MessagesLimit := none
  AcksLimit := none
  PlayerTimeout := none
  MinConnectionTime := none
  LagCompmode := none
  ConnseedTime := none
  DBLogging := none
  DBLogQueries := none
  ConnectCookies := none
  CookieLogging := none
  Output := none

/-- A process environment: name/value pairs, first binding wins. -/
def Env : Type := List (String × String)

/-- Model of `os.LookupEnv`. -/
def lookupEnv (env : Env) (name : String) : Option String :=
  (List.find? (fun p => p.1 == name) env).map (fun p => p.2)

/-- Characters of a struct tag before the first comma, i.e.
`strings.Split(tag, ",")[0]` of `settings.go` line 165. -/
def firstTagComponent : List Char → List Char
  | [] => []
  | c :: t => if c = ',' then [] else c :: firstTagComponent t

/-- Environment-variable name for a json tag:
`"SAMP_" + strings.ToUpper(strings.Split(tag, ",")[0])`
(`settings.go` line 165).  The tags in this struct are ASCII, for which
Go's Unicode `ToUpper` agrees with per-character ASCII upper-casing. -/
def envVarName (tag : String) : String :=
  "SAMP_" ++ String.mk ((firstTagComponent tag.data).map Char.toUpper)

/-- Model of `strconv.ParseBool`: exactly these twelve tokens parse;
every other string is an error (and the accompanying value is `false`). -/
def parseBool (s : String) : Option Bool :=
  if s = "1" ∨ s = "t" ∨ s = "T" ∨ s = "true" ∨ s = "TRUE" ∨ s = "True" then
    some true
  else if s = "0" ∨ s = "f" ∨ s = "F" ∨ s = "false" ∨ s = "FALSE" ∨ s = "False" then
    some false
  else
    none

/-- Numeric value of a list of ASCII digits. -/
def digitsToNat (cs : List Char) : Nat :=
  cs.foldl (fun a c => a * 10 + (c.toNat - 48)) 0

/-- Model of `strconv.Atoi` (= `ParseInt(s, 10, 0)` on a 64-bit
platform): optional single sign, one or more ASCII digits, no other
characters; errors on the empty digit string and on values outside the
signed 64-bit range.  On error the code skips the field, so the
value accompanying a range error is never observed. -/
def atoi (s : String) : Option Int :=
  let (neg, digits) :=
    match s.data with
    | '+' :: rest => (false, rest)
    | '-' :: rest => (true, rest)
    | cs => (false, cs)
  if digits.isEmpty then none
  else if digits.all Char.isDigit then
    let v : Int := if neg then -(digitsToNat digits : Int) else (digitsToNat digits : Int)
    if -(2 ^ 63) ≤ v ∧ v ≤ 2 ^ 63 - 1 then some v else none
  else none

/-- Model of the decimal subset of `strconv.ParseFloat(s, 64)` (see the
module comment for the subset): optional sign, digits with an optional
fractional part (at least one digit overall), and an optional decimal
exponent.  The exact value is returned as a rational. -/
def parseGoFloat (s : String) : Option ℚ :=
  let (neg, cs) :=
    match s.data with
    | '+' :: rest => (false, rest)
    | '-' :: rest => (true, rest)
    | cs => (false, cs)
  let (ip, r1) := cs.span Char.isDigit
  let (fp, r2) :=
    match r1 with
    | '.' :: rest => rest.span Char.isDigit
    | _ => ([], r1)
  if ip.isEmpty ∧ fp.isEmpty then none
  else
    let mant : ℚ := (digitsToNat (ip ++ fp) : ℚ)
    let mkVal (e : Int) : ℚ :=
      let e' : Int := e - fp.length
      let m : ℚ := if neg then -mant else mant
      if 0 ≤ e' then m * 10 ^ e'.toNat else m / 10 ^ (-e').toNat
    match r2 with
    | [] => some (mkVal 0)
    | c :: r3 =>
      if c = 'e' ∨ c = 'E' then
        let (eneg, r4) :=
          match r3 with
          | '+' :: rest => (false, rest)
          | '-' :: rest => (true, rest)
          | cs => (false, cs)
        if r4.isEmpty ∨ ¬ r4.all Char.isDigit then none
        else some (mkVal (if eneg then -(digitsToNat r4 : Int) else (digitsToNat r4 : Int)))
      else none

/-- Diagnostics printed by `LoadEnvironmentVariables` (modelling the
`fmt.Println` / `fmt.Printf` calls; the constructors carry the struct
field name and offending value of the corresponding `Printf`). -/
inductive LogMsg where
  /-- The fixed message `cannot set gamemode via environment variables
  yet` printed for a `[]string` field (`settings.go` line 182). -/
  | seqNotSupported
  /-- Warning that a value could not be interpreted as boolean. -/
  | boolParseWarning (field value : String)
  /-- Warning that a value could not be interpreted as integer. -/
  | intParseWarning (field value : String)
  /-- Warning that a value could not be interpreted as float. -/
  | floatParseWarning (field value : String)
deriving DecidableEq, Repr

/-- The `*string` case of the overlay switch: assign the raw value
verbatim (allocating first when the field was nil). -/
def overlayString (env : Env) (tag : String) (old : Option String) : Option String :=
  match lookupEnv env (envVarName tag) with
  | none => old
  | some v => some v

/-- The `[]string` case of the overlay switch: a no-op plus the fixed
informational message. -/
def overlayStringList (env : Env) (tag : String) (old : List String) :
    List String × List LogMsg :=
  match lookupEnv env (envVarName tag) with
  | none => (old, [])
  | some _ => (old, [LogMsg.seqNotSupported])

/-- The `*bool` case of the overlay switch: on a parse error a warning
is printed and the zero value `false` is still assigned. -/
def overlayBool (env : Env) (tag field : String) (old : Option Bool) :
    Option Bool × List LogMsg :=
  match lookupEnv env (envVarName tag) with
  | none => (old, [])
  | some v =>
    match parseBool v with
    | some b => (some b, [])
    | none => (some false, [LogMsg.boolParseWarning field v])

/-- The `*int` case of the overlay switch: on a parse error a warning is
printed and the field is skipped (`continue`). -/
def overlayInt (env : Env) (tag field : String) (old : Option Int) :
    Option Int × List LogMsg :=
  match lookupEnv env (envVarName tag) with
  | none => (old, [])
  | some v =>
    match atoi v with
    | some n => (some n, [])
    | none => (old, [LogMsg.intParseWarning field v])

/-- The `*float32` case of the overlay switch: on a parse error a
warning is printed and the field is skipped (`continue`). -/
def overlayFloat (env : Env) (tag field : String) (old : Option ℚ) :
    Option ℚ × List LogMsg :=
  match lookupEnv env (envVarName tag) with
  | none => (old, [])
  | some v =>
    match parseGoFloat v with
    | some q => (some q, [])
    | none => (old, [LogMsg.floatParseWarning field v])

/-- New values of all settable fields of the record, one overlay helper
per field with its json tag and struct field name, in declaration order
(`settings.go` lines 157-221).  The unexported `dir` field fails
`CanSet` and is skipped.  The `Plugins` branch is not taken here: this
record is only built when `SAMP_PLUGINS` is unset (see
`loadEnvironmentVariables`). -/
def overlayScalars (env : Env) (cfg : Config) : Config where
  dir := cfg.dir
  Version := overlayString env "version,omitempty" cfg.Version
  Endpoint := overlayString env "endpoint,omitempty" cfg.Endpoint
  Echo := overlayString env "echo,omitempty" cfg.Echo
  Gamemodes := (overlayStringList env "gamemodes,omitempty" cfg.Gamemodes).1
  Filterscripts := (overlayStringList env "filterscripts,omitempty" cfg.Filterscripts).1
  Plugins := cfg.Plugins
  RCONPassword := overlayString env "rcon_password,omitempty" cfg.RCONPassword
  Port := (overlayInt env "port" "Port" cfg.Port).1
  Hostname := overlayString env "hostname,omitempty" cfg.Hostname
  MaxPlayers := (overlayInt env "maxplayers" "MaxPlayers" cfg.MaxPlayers).1
  Language := overlayString env "language,omitempty" cfg.Language
  Mapname := overlayString env "mapname,omitempty" cfg.Mapname
  Weburl := overlayString env "weburl,omitempty" cfg.Weburl
  GamemodeText := overlayString env "gamemodetext,omitempty" cfg.GamemodeText
  Bind := overlayString env "bind,omitempty" cfg.Bind
  Password := overlayString env "password,omitempty" cfg.Password
  Announce := (overlayBool env "announce,omitempty" "Announce" cfg.Announce).1
  LANMode := (overlayBool env "lanmode,omitempty" "LANMode" cfg.LANMode).1
  Query := (overlayBool env "query,omitempty" "Query" cfg.Query).1
  RCON := (overlayBool env "rcon,omitempty" "RCON" cfg.RCON).1
  LogQueries := (overlayBool env "logqueries,omitempty" "LogQueries" cfg.LogQueries).1
  Sleep := (overlayInt env "sleep,omitempty" "Sleep" cfg.Sleep).1
  MaxNPC := (overlayInt env "maxnpc,omitempty" "MaxNPC" cfg.MaxNPC).1
  StreamRate := (overlayInt env "stream_rate,omitempty" "StreamRate" cfg.StreamRate).1
  StreamDistance := (overlayFloat env "stream_distance,omitempty" "StreamDistance" cfg.StreamDistance).1
  OnFootRate := (overlayInt env "onfoot_rate,omitempty" "OnFootRate" cfg.OnFootRate).1
  InCarRate := (overlayInt env "incar_rate,omitempty" "InCarRate" cfg.InCarRate).1
  WeaponRate := (overlayInt env "weapon_rate,omitempty" "WeaponRate" cfg.WeaponRate).1
  ChatLogging := (overlayBool env "chatlogging,omitempty" "ChatLogging" cfg.ChatLogging).1
  Timestamp := (overlayBool env "timestamp,omitempty" "Timestamp" cfg.Timestamp).1
  NoSign := overlayString env "nosign,omitempty" cfg.NoSign
  LogTimeFormat := overlayString env "logtimeformat,omitempty" cfg.LogTimeFormat
  MessageHoleLimit := (overlayInt env "messageholelimit,omitempty" "MessageHoleLimit" cfg.MessageHoleLimit).1
  MessagesLimit := (overlayInt env "messageslimit,omitempty" "MessagesLimit" cfg.MessagesLimit).1
  AcksLimit := (overlayInt env "ackslimit,omitempty" "AcksLimit" cfg.AcksLimit).1
  PlayerTimeout := (overlayInt env "playertimeout,omitempty" "PlayerTimeout" cfg.PlayerTimeout).1
  MinConnectionTime := (overlayInt env "minconnectiontime,omitempty" "MinConnectionTime" cfg.MinConnectionTime).1
  LagCompmode := (overlayInt env "lagcompmode,omitempty" "LagCompmode" cfg.LagCompmode).1
  ConnseedTime := (overlayInt env "connseedtime,omitempty" "ConnseedTime" cfg.ConnseedTime).1
  DBLogging := (overlayBool env "db_logging,omitempty" "DBLogging" cfg.DBLogging).1
  DBLogQueries := (overlayBool env "db_log_queries,omitempty" "DBLogQueries" cfg.DBLogQueries).1
  ConnectCookies := (overlayBool env "conncookies,omitempty" "ConnectCookies" cfg.ConnectCookies).1
  CookieLogging := (overlayBool env "cookielogging,omitempty" "CookieLogging" cfg.CookieLogging).1
  Output := (overlayBool env "output,omitempty" "Output" cfg.Output).1

/-- The diagnostics printed while walking the fields in declaration
order, when the walk completes (no panic); `*string` fields never print
anything. -/
def overlayLogs (env : Env) (cfg : Config) : List LogMsg :=
  (overlayStringList env "gamemodes,omitempty" cfg.Gamemodes).2 ++
  (overlayStringList env "filterscripts,omitempty" cfg.Filterscripts).2 ++
  (overlayInt env "port" "Port" cfg.Port).2 ++
  (overlayInt env "maxplayers" "MaxPlayers" cfg.MaxPlayers).2 ++
  (overlayBool env "announce,omitempty" "Announce" cfg.Announce).2 ++
  (overlayBool env "lanmode,omitempty" "LANMode" cfg.LANMode).2 ++
  (overlayBool env "query,omitempty" "Query" cfg.Query).2 ++
  (overlayBool env "rcon,omitempty" "RCON" cfg.RCON).2 ++
  (overlayBool env "logqueries,omitempty" "LogQueries" cfg.LogQueries).2 ++
  (overlayInt env "sleep,omitempty" "Sleep" cfg.Sleep).2 ++
  (overlayInt env "maxnpc,omitempty" "MaxNPC" cfg.MaxNPC).2 ++
  (overlayInt env "stream_rate,omitempty" "StreamRate" cfg.StreamRate).2 ++
  (overlayFloat env "stream_distance,omitempty" "StreamDistance" cfg.StreamDistance).2 ++
  (overlayInt env "onfoot_rate,omitempty" "OnFootRate" cfg.OnFootRate).2 ++
  (overlayInt env "incar_rate,omitempty" "InCarRate" cfg.InCarRate).2 ++
  (overlayInt env "weapon_rate,omitempty" "WeaponRate" cfg.WeaponRate).2 ++
  (overlayBool env "chatlogging,omitempty" "ChatLogging" cfg.ChatLogging).2 ++
  (overlayBool env "timestamp,omitempty" "Timestamp" cfg.Timestamp).2 ++
  (overlayInt env "messageholelimit,omitempty" "MessageHoleLimit" cfg.MessageHoleLimit).2 ++
  (overlayInt env "messageslimit,omitempty" "MessagesLimit" cfg.MessagesLimit).2 ++
  (overlayInt env "ackslimit,omitempty" "AcksLimit" cfg.AcksLimit).2 ++
  (overlayInt env "playertimeout,omitempty" "PlayerTimeout" cfg.PlayerTimeout).2 ++
  (overlayInt env "minconnectiontime,omitempty" "MinConnectionTime" cfg.MinConnectionTime).2 ++
  (overlayInt env "lagcompmode,omitempty" "LagCompmode" cfg.LagCompmode).2 ++
  (overlayInt env "connseedtime,omitempty" "ConnseedTime" cfg.ConnseedTime).2 ++
  (overlayBool env "db_logging,omitempty" "DBLogging" cfg.DBLogging).2 ++
  (overlayBool env "db_log_queries,omitempty" "DBLogQueries" cfg.DBLogQueries).2 ++
  (overlayBool env "conncookies,omitempty" "ConnectCookies" cfg.ConnectCookies).2 ++
  (overlayBool env "cookielogging,omitempty" "CookieLogging" cfg.CookieLogging).2 ++
  (overlayBool env "output,omitempty" "Output" cfg.Output).2

/-- Model of `(*Config).LoadEnvironmentVariables` (`settings.go` lines
153-222).  Fields are processed in declaration order; each field's new
value depends only on its own old value and the environment, so the walk
is the per-field record update `overlayScalars`.  The `Plugins` field
has Go type `[]Plugin`, whose type string `[]runtime.Plugin` matches no
case of the switch: when `SAMP_PLUGINS` is set the `default` branch
panics (`unknown kind`), modelled as result `none`; the messages already
printed for the two `[]string` fields processed before `Plugins` are
kept. -/
def loadEnvironmentVariables (env : Env) (cfg : Config) : Option Config × List LogMsg :=
  match lookupEnv env (envVarName "plugins,omitempty") with
  | some _ =>
    (none,
      (overlayStringList env "gamemodes,omitempty" cfg.Gamemodes).2 ++
      (overlayStringList env "filterscripts,omitempty" cfg.Filterscripts).2)
  | none => (some (overlayScalars env cfg), overlayLogs env cfg)

/-!  The loader.  File contents and the JSON/YAML decoders are external
to this module (`ioutil.ReadFile`, `encoding/json`, `ghodss/yaml`), so
the filesystem is an explicit association list from path to read result,
and the two unmarshal functions are parameters. -/

/-- A filesystem: each present path maps to `Except.ok contents` or, for
an existing but unreadable file, to `Except.error msg`. -/
def FS : Type := List (String × Except String String)

/-- Read result recorded for a path, `none` when the path is absent. -/
def lookupFile (fs : FS) (path : String) : Option (Except String String) :=
  (List.find? (fun p => p.1 == path) fs).map (fun p => p.2)

/-- Model of `util.Exists`. -/
def utilExists (fs : FS) (path : String) : Bool :=
  (lookupFile fs path).isSome

/-- Model of `filepath.Join(dir, file)` for the uses in this module
(path cleaning of `Join` is not modelled; no claim depends on path
syntax). -/
def joinPath (dir file : String) : String :=
  dir ++ "/" ++ file

/-- Model of `ioutil.ReadFile`. -/
def readFile (fs : FS) (path : String) : Except String String :=
  match lookupFile fs path with
  | none => Except.error ("open " ++ path ++ ": no such file or directory")
  | some r => r

/-- Model of `errors.Wrap(err, msg)`: the wrapped message is
`msg + ": " + err`. -/
def errorsWrap (msg e : String) : String :=
  msg ++ ": " ++ e

/-- Model of `ConfigFromJSON` (`settings.go` lines 116-131); `junm`
stands for `json.Unmarshal` into a zero `Config`. -/
def ConfigFromJSON (junm : String → Except String Config) (fs : FS) (file : String) :
    Except String Config :=
  match readFile fs file with
  | Except.error e => Except.error (errorsWrap "failed to read samp.json" e)
  | Except.ok contents =>
    match junm contents with
    | Except.error e => Except.error (errorsWrap "failed to unmarshal samp.json" e)
    | Except.ok cfg => Except.ok cfg

/-- Model of `ConfigFromYAML` (`settings.go` lines 134-149); `yunm`
stands for `yaml.Unmarshal` into a zero `Config`.  Note that the source
wraps both failures with messages naming `samp.json`, not the YAML
file. -/
def ConfigFromYAML (yunm : String → Except String Config) (fs : FS) (file : String) :
    Except String Config :=
  match readFile fs file with
  | Except.error e => Except.error (errorsWrap "failed to read samp.json" e)
  | Except.ok contents =>
    match yunm contents with
    | Except.error e => Except.error (errorsWrap "failed to unmarshal samp.json" e)
    | Except.ok cfg => Except.ok cfg

/-- Model of `ConfigFromDirectory` (`settings.go` lines 99-113). -/
def ConfigFromDirectory (junm yunm : String → Except String Config) (fs : FS)
    (dir : String) : Except String Config :=
  let jsonFile := joinPath dir "samp.json"
  if utilExists fs jsonFile then
    ConfigFromJSON junm fs jsonFile
  else
    let yamlFile := joinPath dir "samp.yaml"
    if utilExists fs yamlFile then
      ConfigFromYAML yunm fs yamlFile
    else
      Except.error "directory does not contain a samp.json or samp.yaml file"

/-- Model of `NewConfigFromEnvironment` (`settings.go` lines 83-95):
load from the directory, record the directory in the unexported `dir`
field, then apply the environment overlay. -/
def NewConfigFromEnvironment (junm yunm : String → Except String Config) (env : Env)
    (fs : FS) (dir : String) : Except String (Option Config × List LogMsg) :=
  match ConfigFromDirectory junm yunm fs dir with
  | Except.error e => Except.error e
  | Except.ok cfg =>
    Except.ok (loadEnvironmentVariables env { cfg with dir := some dir })

/-!  Field metadata.  One entry per struct field of `Config`, in
declaration order, recording the Go field name, whether the field is
exported (capitalised), and its json struct tag.  `encoding/json` (and
`ghodss/yaml`, which round-trips through it) serializes exactly the
exported fields, under the external name given by the first
comma-separated component of the json tag; unexported fields are never
marshalled or unmarshalled. -/

/-- Static metadata of one `Config` struct field. -/
structure FieldMeta where
  goName : String
  exported : Bool
  jsonTag : String
deriving DecidableEq, Repr

/-- Name, exportedness and json tag of every field of `Config`, in
declaration order (`settings.go` lines 21-78). -/
def configFieldMeta : List FieldMeta :=
  [⟨"dir", false, ""⟩,
   ⟨"Version", true, "version,omitempty"⟩,
   ⟨"Endpoint", true, "endpoint,omitempty"⟩,
   ⟨"Echo", true, "echo,omitempty"⟩,
   ⟨"Gamemodes", true, "gamemodes,omitempty"⟩,
   ⟨"Filterscripts", true, "filterscripts,omitempty"⟩,
   ⟨"Plugins", true, "plugins,omitempty"⟩,
   ⟨"RCONPassword", true, "rcon_password,omitempty"⟩,
   ⟨"Port", true, "port"⟩,
   ⟨"Hostname", true, "hostname,omitempty"⟩,
   ⟨"MaxPlayers", true, "maxplayers"⟩,
   ⟨"Language", true, "language,omitempty"⟩,
   ⟨"Mapname", true, "mapname,omitempty"⟩,
   ⟨"Weburl", true, "weburl,omitempty"⟩,
   ⟨"GamemodeText", true, "gamemodetext,omitempty"⟩,
   ⟨"Bind", true, "bind,omitempty"⟩,
   ⟨"Password", true, "password,omitempty"⟩,
   ⟨"Announce", true, "announce,omitempty"⟩,
   ⟨"LANMode", true, "lanmode,omitempty"⟩,
   ⟨"Query", true, "query,omitempty"⟩,
   ⟨"RCON", true, "rcon,omitempty"⟩,
   ⟨"LogQueries", true, "logqueries,omitempty"⟩,
   ⟨"Sleep", true, "sleep,omitempty"⟩,
   ⟨"MaxNPC", true, "maxnpc,omitempty"⟩,
   ⟨"StreamRate", true, "stream_rate,omitempty"⟩,
   ⟨"StreamDistance", true, "stream_distance,omitempty"⟩,
   ⟨"OnFootRate", true, "onfoot_rate,omitempty"⟩,
   ⟨"InCarRate", true, "incar_rate,omitempty"⟩,
   ⟨"WeaponRate", true, "weapon_rate,omitempty"⟩,
   ⟨"ChatLogging", true, "chatlogging,omitempty"⟩,
   ⟨"Timestamp", true, "timestamp,omitempty"⟩,
   ⟨"NoSign", true, "nosign,omitempty"⟩,
   ⟨"LogTimeFormat", true, "logtimeformat,omitempty"⟩,
   ⟨"MessageHoleLimit", true, "messageholelimit,omitempty"⟩,
   ⟨"MessagesLimit", true, "messageslimit,omitempty"⟩,
   ⟨"AcksLimit", true, "ackslimit,omitempty"⟩,
   ⟨"PlayerTimeout", true, "playertimeout,omitempty"⟩,
   ⟨"MinConnectionTime", true, "minconnectiontime,omitempty"⟩,
   ⟨"LagCompmode", true, "lagcompmode,omitempty"⟩,
   ⟨"ConnseedTime", true, "connseedtime,omitempty"⟩,
   ⟨"DBLogging", true, "db_logging,omitempty"⟩,
   ⟨"DBLogQueries", true, "db_log_queries,omitempty"⟩,
   ⟨"ConnectCookies", true, "conncookies,omitempty"⟩,
   ⟨"CookieLogging", true, "cookielogging,omitempty"⟩,
   ⟨"Output", true, "output,omitempty"⟩]

/-- External names under which fields are (de)serialized to the
JSON/YAML file format: the exported fields' first json-tag components. -/
def serializedNames : List String :=
  (configFieldMeta.filter (fun f => f.exported)).map
    (fun f => String.mk (firstTagComponent f.jsonTag.data))

/-- A reference to one `Config` field of value type `α`: its json tag,
its Go struct field name, and its projection. -/
structure FieldRef (α : Type) where
  tag : String
  goName : String
  get : Config → α

/-- The thirteen fields of Go type `*string`, in declaration order. -/
def stringFields : List (FieldRef (Option String)) :=
  [⟨"version,omitempty", "Version", Config.Version⟩,
   ⟨"endpoint,omitempty", "Endpoint", Config.Endpoint⟩,
   ⟨"echo,omitempty", "Echo", Config.Echo⟩,
   ⟨"rcon_password,omitempty", "RCONPassword", Config.RCONPassword⟩,
   ⟨"hostname,omitempty", "Hostname", Config.Hostname⟩,
   ⟨"language,omitempty", "Language", Config.Language⟩,
   ⟨"mapname,omitempty", "Mapname", Config.Mapname⟩,
   ⟨"weburl,omitempty", "Weburl", Config.Weburl⟩,
   ⟨"gamemodetext,omitempty", "GamemodeText", Config.GamemodeText⟩,
   ⟨"bind,omitempty", "Bind", Config.Bind⟩,
   ⟨"password,omitempty", "Password", Config.Password⟩,
   ⟨"nosign,omitempty", "NoSign", Config.NoSign⟩,
   ⟨"logtimeformat,omitempty", "LogTimeFormat", Config.LogTimeFormat⟩]

/-- The fifteen fields of Go type `*int`, in declaration order. -/
def intFields : List (FieldRef (Option Int)) :=
  [⟨"port", "Port", Config.Port⟩,
   ⟨"maxplayers", "MaxPlayers", Config.MaxPlayers⟩,
   ⟨"sleep,omitempty", "Sleep", Config.Sleep⟩,
   ⟨"maxnpc,omitempty", "MaxNPC", Config.MaxNPC⟩,
   ⟨"stream_rate,omitempty", "StreamRate", Config.StreamRate⟩,
   ⟨"onfoot_rate,omitempty", "OnFootRate", Config.OnFootRate⟩,
   ⟨"incar_rate,omitempty", "InCarRate", Config.InCarRate⟩,
   ⟨"weapon_rate,omitempty", "WeaponRate", Config.WeaponRate⟩,
   ⟨"messageholelimit,omitempty", "MessageHoleLimit", Config.MessageHoleLimit⟩,
   ⟨"messageslimit,omitempty", "MessagesLimit", Config.MessagesLimit⟩,
   ⟨"ackslimit,omitempty", "AcksLimit", Config.AcksLimit⟩,
   ⟨"playertimeout,omitempty", "PlayerTimeout", Config.PlayerTimeout⟩,
   ⟨"minconnectiontime,omitempty", "MinConnectionTime", Config.MinConnectionTime⟩,
   ⟨"lagcompmode,omitempty", "LagCompmode", Config.LagCompmode⟩,
   ⟨"connseedtime,omitempty", "ConnseedTime", Config.ConnseedTime⟩]

/-- The twelve fields of Go type `*bool`, in declaration order. -/
def boolFields : List (FieldRef (Option Bool)) :=
  [⟨"announce,omitempty", "Announce", Config.Announce⟩,
   ⟨"lanmode,omitempty", "LANMode", Config.LANMode⟩,
   ⟨"query,omitempty", "Query", Config.Query⟩,
   ⟨"rcon,omitempty", "RCON", Config.RCON⟩,
   ⟨"logqueries,omitempty", "LogQueries", Config.LogQueries⟩,
   ⟨"chatlogging,omitempty", "ChatLogging", Config.ChatLogging⟩,
   ⟨"timestamp,omitempty", "Timestamp", Config.Timestamp⟩,
   ⟨"db_logging,omitempty", "DBLogging", Config.DBLogging⟩,
   ⟨"db_log_queries,omitempty", "DBLogQueries", Config.DBLogQueries⟩,
   ⟨"conncookies,omitempty", "ConnectCookies", Config.ConnectCookies⟩,
   ⟨"cookielogging,omitempty", "CookieLogging", Config.CookieLogging⟩,
   ⟨"output,omitempty", "Output", Config.Output⟩]

/-- The single field of Go type `*float32`. -/
def floatFields : List (FieldRef (Option ℚ)) :=
  [⟨"stream_distance,omitempty", "StreamDistance", Config.StreamDistance⟩]

/-- The two fields of Go type `[]string`, in declaration order. -/
def seqStringFields : List (FieldRef (List String)) :=
  [⟨"gamemodes,omitempty", "Gamemodes", Config.Gamemodes⟩,
   ⟨"filterscripts,omitempty", "Filterscripts", Config.Filterscripts⟩]

/-- Whether the first list is an initial segment of the second. -/
def leadsWith : List Char → List Char → Bool
  | [], _ => true
  | _ :: _, [] => false
  | a :: as, b :: bs => a == b && leadsWith as bs

/-- Whether `needle` occurs contiguously inside the second list; used to
state that an error message does or does not mention a file or
directory name. -/
def occursIn (needle : List Char) : List Char → Bool
  | [] => leadsWith needle []
  | c :: rest => leadsWith needle (c :: rest) || occursIn needle rest

/-!  Supporting lemmas about the overlay helpers. -/

theorem loadEnv_fst_eq_some (env : Env) (cfg cfg' : Config) :
    (loadEnvironmentVariables env cfg).1 = some cfg' ↔
      lookupEnv env (envVarName "plugins,omitempty") = none ∧
        cfg' = overlayScalars env cfg := by
  unfold loadEnvironmentVariables
  cases h : lookupEnv env (envVarName "plugins,omitempty") <;> simp [h, eq_comm]

theorem loadEnv_snd_of_no_plugins (env : Env) (cfg : Config)
    (h : lookupEnv env (envVarName "plugins,omitempty") = none) :
    (loadEnvironmentVariables env cfg).2 = overlayLogs env cfg := by
  unfold loadEnvironmentVariables
  simp [h]

theorem overlayString_idem (env : Env) (tag : String) (x : Option String) :
    overlayString env tag (overlayString env tag x) = overlayString env tag x := by
  cases h : lookupEnv env (envVarName tag) <;> simp [overlayString, h]

theorem overlayStringList_fst (env : Env) (tag : String) (x : List String) :
    (overlayStringList env tag x).1 = x := by
  cases h : lookupEnv env (envVarName tag) <;> simp [overlayStringList, h]

theorem overlayBool_fst_idem (env : Env) (tag f : String) (x : Option Bool) :
    (overlayBool env tag f (overlayBool env tag f x).1).1 = (overlayBool env tag f x).1 := by
  cases h : lookupEnv env (envVarName tag) with
  | none => simp [overlayBool, h]
  | some v => cases hp : parseBool v <;> simp [overlayBool, h, hp]

theorem overlayInt_fst_idem (env : Env) (tag f : String) (x : Option Int) :
    (overlayInt env tag f (overlayInt env tag f x).1).1 = (overlayInt env tag f x).1 := by
  cases h : lookupEnv env (envVarName tag) with
  | none => simp [overlayInt, h]
  | some v => cases hp : atoi v <;> simp [overlayInt, h, hp]

theorem overlayFloat_fst_idem (env : Env) (tag f : String) (x : Option ℚ) :
    (overlayFloat env tag f (overlayFloat env tag f x).1).1 = (overlayFloat env tag f x).1 := by
  cases h : lookupEnv env (envVarName tag) with
  | none => simp [overlayFloat, h]
  | some v => cases hp : parseGoFloat v <;> simp [overlayFloat, h, hp]

theorem overlayScalars_idem (env : Env) (cfg : Config) :
    overlayScalars env (overlayScalars env cfg) = overlayScalars env cfg := by
  simp [overlayScalars, Config.mk.injEq, overlayString_idem, overlayStringList_fst,
    overlayBool_fst_idem, overlayInt_fst_idem, overlayFloat_fst_idem]

theorem overlayString_isSome (env : Env) (tag : String) (x : Option String)
    (hx : x.isSome) : (overlayString env tag x).isSome := by
  cases h : lookupEnv env (envVarName tag) <;> simp_all [overlayString, h]

theorem overlayString_of_unset (env : Env) (tag : String) (x : Option String)
    (h : lookupEnv env (envVarName tag) = none) : overlayString env tag x = x := by
  simp [overlayString, h]

theorem overlayBool_isSome (env : Env) (tag f : String) (x : Option Bool)
    (hx : x.isSome) : (overlayBool env tag f x).1.isSome := by
  cases h : lookupEnv env (envVarName tag) with
  | none => simp_all [overlayBool, h]
  | some v => cases hp : parseBool v <;> simp_all [overlayBool, h, hp]

theorem overlayBool_of_unset (env : Env) (tag f : String) (x : Option Bool)
    (h : lookupEnv env (envVarName tag) = none) : (overlayBool env tag f x).1 = x := by
  simp [overlayBool, h]

theorem overlayInt_isSome (env : Env) (tag f : String) (x : Option Int)
    (hx : x.isSome) : (overlayInt env tag f x).1.isSome := by
  cases h : lookupEnv env (envVarName tag) with
  | none => simp_all [overlayInt, h]
  | some v => cases hp : atoi v <;> simp_all [overlayInt, h, hp]

theorem overlayInt_of_unset (env : Env) (tag f : String) (x : Option Int)
    (h : lookupEnv env (envVarName tag) = none) : (overlayInt env tag f x).1 = x := by
  simp [overlayInt, h]

theorem overlayFloat_isSome (env : Env) (tag f : String) (x : Option ℚ)
    (hx : x.isSome) : (overlayFloat env tag f x).1.isSome := by
  cases h : lookupEnv env (envVarName tag) with
  | none => simp_all [overlayFloat, h]
  | some v => cases hp : parseGoFloat v <;> simp_all [overlayFloat, h, hp]

theorem overlayFloat_of_unset (env : Env) (tag f : String) (x : Option ℚ)
    (h : lookupEnv env (envVarName tag) = none) : (overlayFloat env tag f x).1 = x := by
  simp [overlayFloat, h]

/-!  Claim theorems. -/

/-- C1: for every scalar optional field (`*string`, `*int`, `*bool`,
`*float32`), if the environment variable `SAMP_` + uppercased first
comma component of the field's json tag is set to a value parsable at
the field's declared type, then after `LoadEnvironmentVariables` the
field holds the parsed environment value, overriding any value loaded
from the file. -/
theorem envOverride_sets_parsed_scalars (env : Env) (cfg cfg' : Config)
    (h : (loadEnvironmentVariables env cfg).1 = some cfg') :
    (∀ p ∈ stringFields, ∀ v, lookupEnv env (envVarName p.tag) = some v →
        p.get cfg' = some v) ∧
    (∀ p ∈ intFields, ∀ v n, lookupEnv env (envVarName p.tag) = some v →
        atoi v = some n → p.get cfg' = some n) ∧
    (∀ p ∈ boolFields, ∀ v b, lookupEnv env (envVarName p.tag) = some v →
        parseBool v = some b → p.get cfg' = some b) ∧
    (∀ p ∈ floatFields, ∀ v q, lookupEnv env (envVarName p.tag) = some v →
        parseGoFloat v = some q → p.get cfg' = some q) := by
  obtain ⟨hpl, rfl⟩ := (loadEnv_fst_eq_some env cfg cfg').mp h
  refine ⟨?_, ?_, ?_, ?_⟩
  · intro p hp
    fin_cases hp <;> (intro v hv; simp [overlayScalars, overlayString, hv])
  · intro p hp
    fin_cases hp <;> (intro v n hv hn; simp [overlayScalars, overlayInt, hv, hn])
  · intro p hp
    fin_cases hp <;> (intro v b hv hb; simp [overlayScalars, overlayBool, hv, hb])
  · intro p hp
    fin_cases hp
    intro v q hv hq
    simp [overlayScalars, overlayFloat, hv, hq]

/-- C9: the overlay is idempotent: a second application with the same
environment leaves the record produced by the first application
unchanged. -/
theorem envOverride_idempotent (env : Env) (cfg cfg' : Config)
    (h : (loadEnvironmentVariables env cfg).1 = some cfg') :
    (loadEnvironmentVariables env cfg').1 = some cfg' := by
  obtain ⟨hpl, rfl⟩ := (loadEnv_fst_eq_some env cfg cfg').mp h
  exact (loadEnv_fst_eq_some env (overlayScalars env cfg) (overlayScalars env cfg)).mpr
    ⟨hpl, (overlayScalars_idem env cfg).symm⟩

/-- C7: the overlay preserves field presence — every field that was
non-nil before is non-nil after — and a field whose derived environment
variable is unset keeps exactly its prior value; the unexported `dir`
field and the three slice fields are always left unchanged. -/
theorem envOverride_preserves_presence (env : Env) (cfg cfg' : Config)
    (h : (loadEnvironmentVariables env cfg).1 = some cfg') :
    cfg'.dir = cfg.dir ∧
    cfg'.Gamemodes = cfg.Gamemodes ∧
    cfg'.Filterscripts = cfg.Filterscripts ∧
    cfg'.Plugins = cfg.Plugins ∧
    (∀ p ∈ stringFields, ((p.get cfg).isSome → (p.get cfg').isSome) ∧
        (lookupEnv env (envVarName p.tag) = none → p.get cfg' = p.get cfg)) ∧
    (∀ p ∈ intFields, ((p.get cfg).isSome → (p.get cfg').isSome) ∧
        (lookupEnv env (envVarName p.tag) = none → p.get cfg' = p.get cfg)) ∧
    (∀ p ∈ boolFields, ((p.get cfg).isSome → (p.get cfg').isSome) ∧
        (lookupEnv env (envVarName p.tag) = none → p.get cfg' = p.get cfg)) ∧
    (∀ p ∈ floatFields, ((p.get cfg).isSome → (p.get cfg').isSome) ∧
        (lookupEnv env (envVarName p.tag) = none → p.get cfg' = p.get cfg)) := by
  obtain ⟨hpl, rfl⟩ := (loadEnv_fst_eq_some env cfg cfg').mp h
  refine ⟨rfl, ?_, ?_, rfl, ?_, ?_, ?_, ?_⟩
  · simp [overlayScalars, overlayStringList_fst]
  · simp [overlayScalars, overlayStringList_fst]
  · intro p hp
    fin_cases hp <;>
      exact ⟨fun hs => overlayString_isSome env _ _ hs,
        fun hn => overlayString_of_unset env _ _ hn⟩
  · intro p hp
    fin_cases hp <;>
      exact ⟨fun hs => overlayInt_isSome env _ _ _ hs,
        fun hn => overlayInt_of_unset env _ _ _ hn⟩
  · intro p hp
    fin_cases hp <;>
      exact ⟨fun hs => overlayBool_isSome env _ _ _ hs,
        fun hn => overlayBool_of_unset env _ _ _ hn⟩
  · intro p hp
    fin_cases hp
    exact ⟨fun hs => overlayFloat_isSome env _ _ _ hs,
      fun hn => overlayFloat_of_unset env _ _ _ hn⟩

theorem overlayBool_snd_fail (env : Env) (tag f : String) (x : Option Bool) (v : String)
    (hv : lookupEnv env (envVarName tag) = some v) (hb : parseBool v = none) :
    (overlayBool env tag f x).2 = [LogMsg.boolParseWarning f v] := by
  simp [overlayBool, hv, hb]

theorem overlayInt_snd_fail (env : Env) (tag f : String) (x : Option Int) (v : String)
    (hv : lookupEnv env (envVarName tag) = some v) (hn : atoi v = none) :
    (overlayInt env tag f x).2 = [LogMsg.intParseWarning f v] := by
  simp [overlayInt, hv, hn]

theorem overlayFloat_snd_fail (env : Env) (tag f : String) (x : Option ℚ) (v : String)
    (hv : lookupEnv env (envVarName tag) = some v) (hq : parseGoFloat v = none) :
    (overlayFloat env tag f x).2 = [LogMsg.floatParseWarning f v] := by
  simp [overlayFloat, hv, hq]

set_option maxHeartbeats 3200000 in
/-- C3: asymmetric parse-failure policy.  A `*bool` field whose set
environment value `strconv.ParseBool` rejects is still assigned — it
ends up `some false`, with a warning printed — while a `*int` or
`*float32` field with an unparsable value is skipped and keeps exactly
its prior value, also with a warning printed. -/
theorem parseFailure_bool_coerces_numeric_skips (env : Env) (cfg cfg' : Config)
    (h : (loadEnvironmentVariables env cfg).1 = some cfg') :
    (∀ p ∈ boolFields, ∀ v, lookupEnv env (envVarName p.tag) = some v →
        parseBool v = none →
        p.get cfg' = some false ∧
          LogMsg.boolParseWarning p.goName v ∈ (loadEnvironmentVariables env cfg).2) ∧
    (∀ p ∈ intFields, ∀ v, lookupEnv env (envVarName p.tag) = some v →
        atoi v = none →
        p.get cfg' = p.get cfg ∧
          LogMsg.intParseWarning p.goName v ∈ (loadEnvironmentVariables env cfg).2) ∧
    (∀ p ∈ floatFields, ∀ v, lookupEnv env (envVarName p.tag) = some v →
        parseGoFloat v = none →
        p.get cfg' = p.get cfg ∧
          LogMsg.floatParseWarning p.goName v ∈ (loadEnvironmentVariables env cfg).2) := by
  obtain ⟨hpl, rfl⟩ := (loadEnv_fst_eq_some env cfg cfg').mp h
  refine ⟨?_, ?_, ?_⟩
  · intro p hp
    fin_cases hp <;>
      (intro v hv hb
       constructor
       · simp [overlayScalars, overlayBool, hv, hb]
       · rw [loadEnv_snd_of_no_plugins env cfg hpl]
         simp only [overlayLogs]
         rw [overlayBool_snd_fail env _ _ _ v hv hb]
         simp)
  · intro p hp
    fin_cases hp <;>
      (intro v hv hn
       constructor
       · simp [overlayScalars, overlayInt, hv, hn]
       · rw [loadEnv_snd_of_no_plugins env cfg hpl]
         simp only [overlayLogs]
         rw [overlayInt_snd_fail env _ _ _ v hv hn]
         simp)
  · intro p hp
    fin_cases hp
    intro v hv hq
    constructor
    · simp [overlayScalars, overlayFloat, hv, hq]
    · rw [loadEnv_snd_of_no_plugins env cfg hpl]
      simp only [overlayLogs]
      rw [overlayFloat_snd_fail env _ _ _ v hv hq]
      simp

theorem overlayStringList_snd_set (env : Env) (tag : String) (x : List String) (v : String)
    (hv : lookupEnv env (envVarName tag) = some v) :
    (overlayStringList env tag x).2 = [LogMsg.seqNotSupported] := by
  simp [overlayStringList, hv]

set_option maxHeartbeats 800000 in
/-- C2 (amended): for the two `[]string` fields Gamemodes and
Filterscripts, a set environment variable is a no-op apart from the
informational `cannot set gamemode via environment variables yet`
message; but for the `[]Plugin` field Plugins, a set `SAMP_PLUGINS`
makes the walk hit the `default` case of the type switch and panic
(modelled as result `none`), so the overlay does terminate abnormally
for the sequence-of-record field. -/
theorem seqString_env_noop_but_plugins_panic (env : Env) (cfg : Config) :
    (∀ p ∈ seqStringFields, ∀ v, lookupEnv env (envVarName p.tag) = some v →
        (∀ cfg', (loadEnvironmentVariables env cfg).1 = some cfg' →
            p.get cfg' = p.get cfg) ∧
        LogMsg.seqNotSupported ∈ (loadEnvironmentVariables env cfg).2) ∧
    (∀ v, lookupEnv env (envVarName "plugins,omitempty") = some v →
        (loadEnvironmentVariables env cfg).1 = none) := by
  constructor
  · intro p hp
    fin_cases hp <;>
      (intro v hv
       constructor
       · intro cfg' h
         obtain ⟨hpl, rfl⟩ := (loadEnv_fst_eq_some env cfg cfg').mp h
         simp [overlayScalars, overlayStringList_fst]
       · cases hpl : lookupEnv env (envVarName "plugins,omitempty") with
         | none =>
           rw [loadEnv_snd_of_no_plugins env cfg hpl]
           simp only [overlayLogs]
           rw [overlayStringList_snd_set env _ _ v hv]
           simp
         | some w =>
           unfold loadEnvironmentVariables
           rw [hpl]
           simp only []
           rw [overlayStringList_snd_set env _ _ v hv]
           simp)
  · intro v hv
    unfold loadEnvironmentVariables
    simp [hv]

/-- C2 counterexample: setting `SAMP_PLUGINS` does not leave the
overlay a no-op with an informational message — the type switch hits
its `default` case and panics (`unknown kind`), modelled as result
`none`, i.e. abnormal termination. -/
theorem plugins_env_overlay_panics :
    (loadEnvironmentVariables [("SAMP_PLUGINS", "anything")] Config.empty).1 = none := rfl

/-- C4: when `samp.json` is present in the directory,
`ConfigFromDirectory` decodes it: the result is exactly
`ConfigFromJSON` on `samp.json`, a successfully decoded content is
returned as is, and any second filesystem that agrees on the
`samp.json` entry — whatever `samp.yaml` it does or does not contain —
produces the same result. -/
theorem configFromDirectory_json_precedence
    (junm yunm : String → Except String Config) (fs fs2 : FS) (dir : String)
    (r : Except String String)
    (hj : lookupFile fs (joinPath dir "samp.json") = some r) :
    ConfigFromDirectory junm yunm fs dir =
        ConfigFromJSON junm fs (joinPath dir "samp.json") ∧
    (∀ c cfgv, r = Except.ok c → junm c = Except.ok cfgv →
        ConfigFromDirectory junm yunm fs dir = Except.ok cfgv) ∧
    (lookupFile fs2 (joinPath dir "samp.json") = some r →
        ConfigFromDirectory junm yunm fs2 dir = ConfigFromDirectory junm yunm fs dir) := by
  refine ⟨?_, ?_, ?_⟩
  · simp [ConfigFromDirectory, utilExists, hj]
  · intro c cfgv hr hc
    subst hr
    simp [ConfigFromDirectory, utilExists, hj, ConfigFromJSON, readFile, hc]
  · intro hj2
    simp [ConfigFromDirectory, utilExists, hj, hj2, ConfigFromJSON, readFile]

/-- C5 (code bug): a directory containing only a malformed `samp.yaml`
makes `ConfigFromYAML` fail, but the wrapped error says `failed to
unmarshal samp.json`, preserving the underlying message (`boom`) while
naming the wrong file: `samp.yaml` — the file that actually failed —
does not occur in the error at all. -/
theorem yamlFailure_error_names_wrong_file :
    ConfigFromDirectory (fun _ => Except.error "notreached") (fun _ => Except.error "boom")
        [("d/samp.yaml", Except.ok "gibberish")] "d" =
      Except.error "failed to unmarshal samp.json: boom" ∧
    occursIn "samp.yaml".data "failed to unmarshal samp.json: boom".data = false ∧
    occursIn "boom".data "failed to unmarshal samp.json: boom".data = true :=
  ⟨rfl, by decide, by decide⟩

/-- C6 (amended): when the directory has neither `samp.json` nor
`samp.yaml`, `ConfigFromDirectory` fails with the fixed message
`directory does not contain a samp.json or samp.yaml file` (which does
not name the searched directory). -/
theorem configFromDirectory_missing_files_error
    (junm yunm : String → Except String Config) (fs : FS) (dir : String)
    (hj : lookupFile fs (joinPath dir "samp.json") = none)
    (hy : lookupFile fs (joinPath dir "samp.yaml") = none) :
    ConfigFromDirectory junm yunm fs dir =
      Except.error "directory does not contain a samp.json or samp.yaml file" := by
  simp [ConfigFromDirectory, utilExists, hj, hy]

/-- C6 counterexample: for an empty filesystem and the directory
`servers/alpha`, the discovery error is returned but its message does
not contain the directory that was searched. -/
theorem noConfigError_omits_directory :
    ConfigFromDirectory (fun _ => Except.error "j") (fun _ => Except.error "y")
        ([] : FS) "servers/alpha" =
      Except.error "directory does not contain a samp.json or samp.yaml file" ∧
    occursIn "servers/alpha".data
      "directory does not contain a samp.json or samp.yaml file".data = false :=
  ⟨rfl, by decide⟩

/-- C10: if `samp.json` exists, `ConfigFromDirectory` commits to it: a
failing `ConfigFromJSON` result is returned as the error with no
fallback, even when the same directory holds a readable `samp.yaml`
that would decode successfully. -/
theorem jsonFailure_no_yaml_fallback
    (junm yunm : String → Except String Config) (fs : FS) (dir e : String)
    (r : Except String String) (c : String) (cfgv : Config)
    (hj : lookupFile fs (joinPath dir "samp.json") = some r)
    (hfail : ConfigFromJSON junm fs (joinPath dir "samp.json") = Except.error e)
    (_hy : lookupFile fs (joinPath dir "samp.yaml") = some (Except.ok c))
    (_hyv : yunm c = Except.ok cfgv) :
    ConfigFromDirectory junm yunm fs dir = Except.error e := by
  simp [ConfigFromDirectory, utilExists, hj, hfail]

/-- C8 counterexample: the `Echo` field is not excluded from the
overlay enumeration or from serialization: its json tag is
`echo,omitempty`, so `SAMP_ECHO` overrides it, and `echo` is among the
names serialized into the file format. -/
theorem echo_overridden_by_env :
    (loadEnvironmentVariables [("SAMP_ECHO", "injected")] Config.empty).1 =
      some { Config.empty with Echo := some "injected" } ∧
    Config.empty.Echo = none ∧
    "echo" ∈ serializedNames :=
  ⟨rfl, rfl, by decide⟩

/-- C8 (amended): only the unexported `dir` field is excluded: the
overlay always preserves it, and being unexported it is never
(de)serialized — its metadata is not exported, so `dir` is not among
the serialized names. -/
theorem dir_excluded_from_overlay_and_serialization (env : Env) (cfg cfg' : Config)
    (h : (loadEnvironmentVariables env cfg).1 = some cfg') :
    cfg'.dir = cfg.dir ∧
    (∀ m ∈ configFieldMeta, m.goName = "dir" → m.exported = false) ∧
    "dir" ∉ serializedNames := by
  obtain ⟨hpl, rfl⟩ := (loadEnv_fst_eq_some env cfg cfg').mp h
  exact ⟨rfl, by decide, by decide⟩

/-!  Witnesses: each applies its claim's theorem at a concrete input,
discharging every hypothesis by evaluation.  The spec's own examples
are used where it gives one (`port: 7777` overridden by
`SAMP_PORT=9999`, `SAMP_MAXPLAYERS=notanumber`, `SAMP_ANNOUNCE=yes`). -/

theorem envOverride_sets_parsed_scalars_witness :
    (loadEnvironmentVariables [("SAMP_PORT", "9999")]
        { Config.empty with Port := some 7777 }).1 =
      some { Config.empty with Port := some 9999 } ∧
    ({ Config.empty with Port := some 9999 } : Config).Port = some 9999 :=
  ⟨rfl,
   (envOverride_sets_parsed_scalars [("SAMP_PORT", "9999")]
        { Config.empty with Port := some 7777 }
        { Config.empty with Port := some 9999 } rfl).2.1
      ⟨"port", "Port", Config.Port⟩ (List.Mem.head _) "9999" 9999 rfl rfl⟩

theorem seqString_env_noop_but_plugins_panic_witness :
    LogMsg.seqNotSupported ∈
      (loadEnvironmentVariables [("SAMP_GAMEMODES", "dm")]
        { Config.empty with Gamemodes := ["freeroam"] }).2 :=
  ((seqString_env_noop_but_plugins_panic [("SAMP_GAMEMODES", "dm")]
        { Config.empty with Gamemodes := ["freeroam"] }).1
      ⟨"gamemodes,omitempty", "Gamemodes", Config.Gamemodes⟩ (List.Mem.head _)
      "dm" rfl).2

theorem parseFailure_bool_coerces_numeric_skips_witness :
    (loadEnvironmentVariables [("SAMP_ANNOUNCE", "yes"), ("SAMP_MAXPLAYERS", "notanumber")]
        { Config.empty with Announce := some true, MaxPlayers := some 50 }).1 =
      some { Config.empty with Announce := some false, MaxPlayers := some 50 } ∧
    ({ Config.empty with Announce := some false, MaxPlayers := some 50 } : Config).Announce =
      some false ∧
    ({ Config.empty with Announce := some false, MaxPlayers := some 50 } : Config).MaxPlayers =
      some 50 ∧
    LogMsg.boolParseWarning "Announce" "yes" ∈
      (loadEnvironmentVariables [("SAMP_ANNOUNCE", "yes"), ("SAMP_MAXPLAYERS", "notanumber")]
        { Config.empty with Announce := some true, MaxPlayers := some 50 }).2 ∧
    LogMsg.intParseWarning "MaxPlayers" "notanumber" ∈
      (loadEnvironmentVariables [("SAMP_ANNOUNCE", "yes"), ("SAMP_MAXPLAYERS", "notanumber")]
        { Config.empty with Announce := some true, MaxPlayers := some 50 }).2 :=
  ⟨rfl,
   ((parseFailure_bool_coerces_numeric_skips
        [("SAMP_ANNOUNCE", "yes"), ("SAMP_MAXPLAYERS", "notanumber")]
        { Config.empty with Announce := some true, MaxPlayers := some 50 }
        { Config.empty with Announce := some false, MaxPlayers := some 50 } rfl).1
      ⟨"announce,omitempty", "Announce", Config.Announce⟩ (List.Mem.head _) "yes"
      rfl rfl).1,
   ((parseFailure_bool_coerces_numeric_skips
        [("SAMP_ANNOUNCE", "yes"), ("SAMP_MAXPLAYERS", "notanumber")]
        { Config.empty with Announce := some true, MaxPlayers := some 50 }
        { Config.empty with Announce := some false, MaxPlayers := some 50 } rfl).2.1
      ⟨"maxplayers", "MaxPlayers", Config.MaxPlayers⟩
      (List.Mem.tail _ (List.Mem.head _)) "notanumber" rfl rfl).1,
   ((parseFailure_bool_coerces_numeric_skips
        [("SAMP_ANNOUNCE", "yes"), ("SAMP_MAXPLAYERS", "notanumber")]
        { Config.empty with Announce := some true, MaxPlayers := some 50 }
        { Config.empty with Announce := some false, MaxPlayers := some 50 } rfl).1
      ⟨"announce,omitempty", "Announce", Config.Announce⟩ (List.Mem.head _) "yes"
      rfl rfl).2,
   ((parseFailure_bool_coerces_numeric_skips
        [("SAMP_ANNOUNCE", "yes"), ("SAMP_MAXPLAYERS", "notanumber")]
        { Config.empty with Announce := some true, MaxPlayers := some 50 }
        { Config.empty with Announce := some false, MaxPlayers := some 50 } rfl).2.1
      ⟨"maxplayers", "MaxPlayers", Config.MaxPlayers⟩
      (List.Mem.tail _ (List.Mem.head _)) "notanumber" rfl rfl).2⟩

theorem configFromDirectory_json_precedence_witness :
    ConfigFromDirectory
        (fun s => if s = "J" then Except.ok { Config.empty with Port := some 7777 }
                  else Except.error "bad")
        (fun _ => Except.ok { Config.empty with Port := some 1 })
        [("d/samp.json", Except.ok "J"), ("d/samp.yaml", Except.ok "Y")] "d" =
      Except.ok { Config.empty with Port := some 7777 } :=
  (configFromDirectory_json_precedence
      (fun s => if s = "J" then Except.ok { Config.empty with Port := some 7777 }
                else Except.error "bad")
      (fun _ => Except.ok { Config.empty with Port := some 1 })
      [("d/samp.json", Except.ok "J"), ("d/samp.yaml", Except.ok "Y")] ([] : FS) "d"
      (Except.ok "J") rfl).2.1 "J" { Config.empty with Port := some 7777 } rfl rfl

theorem configFromDirectory_missing_files_error_witness :
    ConfigFromDirectory (fun _ => Except.error "j") (fun _ => Except.error "y")
        ([] : FS) "emptydir" =
      Except.error "directory does not contain a samp.json or samp.yaml file" :=
  configFromDirectory_missing_files_error (fun _ => Except.error "j")
    (fun _ => Except.error "y") ([] : FS) "emptydir" rfl rfl

theorem envOverride_preserves_presence_witness :
    (loadEnvironmentVariables [("SAMP_HOSTNAME", "srv")]
        { Config.empty with Port := some 7777 }).1 =
      some { Config.empty with Port := some 7777, Hostname := some "srv" } ∧
    ({ Config.empty with Port := some 7777, Hostname := some "srv" } : Config).Port =
      some 7777 :=
  ⟨rfl,
   ((envOverride_preserves_presence [("SAMP_HOSTNAME", "srv")]
        { Config.empty with Port := some 7777 }
        { Config.empty with Port := some 7777, Hostname := some "srv" }
        rfl).2.2.2.2.2.1 ⟨"port", "Port", Config.Port⟩ (List.Mem.head _)).2 rfl⟩

theorem dir_excluded_from_overlay_and_serialization_witness :
    (loadEnvironmentVariables [("SAMP_PORT", "9999")]
        { Config.empty with dir := some "/srv" }).1 =
      some { Config.empty with dir := some "/srv", Port := some 9999 } ∧
    ({ Config.empty with dir := some "/srv", Port := some 9999 } : Config).dir =
      some "/srv" :=
  ⟨rfl,
   (dir_excluded_from_overlay_and_serialization [("SAMP_PORT", "9999")]
      { Config.empty with dir := some "/srv" }
      { Config.empty with dir := some "/srv", Port := some 9999 } rfl).1⟩

theorem envOverride_idempotent_witness :
    (loadEnvironmentVariables [("SAMP_PORT", "9999")]
        { Config.empty with Port := some 9999 }).1 =
      some { Config.empty with Port := some 9999 } :=
  envOverride_idempotent [("SAMP_PORT", "9999")] { Config.empty with Port := some 7777 }
    { Config.empty with Port := some 9999 } rfl

theorem jsonFailure_no_yaml_fallback_witness :
    ConfigFromDirectory (fun _ => Except.error "parsefail") (fun _ => Except.ok Config.empty)
        [("d/samp.json", Except.ok "badjson"), ("d/samp.yaml", Except.ok "goodyaml")] "d" =
      Except.error "failed to unmarshal samp.json: parsefail" :=
  jsonFailure_no_yaml_fallback (fun _ => Except.error "parsefail")
    (fun _ => Except.ok Config.empty)
    [("d/samp.json", Except.ok "badjson"), ("d/samp.yaml", Except.ok "goodyaml")] "d"
    "failed to unmarshal samp.json: parsefail" (Except.ok "badjson") "goodyaml"
    Config.empty rfl rfl rfl rfl

end Sampctl
